import Mathlib

/- Shallow embedding of osfmk/kern/gzalloc.c (the "guard mode" zone
allocator).  Machine addresses and sizes are modelled as `Nat`; the
`vm_size_t` subtraction that can wrap is made explicit with `% 2 ^ 64`,
and the `uint32_t` header size field with `% 2 ^ 32`.  Kernel panics
(`panic`, plus the DEBUG `assert`) are modelled with `Except GzPanic`.
The virtual-memory collaborators (`kernel_memory_allocate`,
`vm_map_protect`, `vm_map_remove`) are external to this file's source:
their returned address is a parameter and the protect/remove calls are
recorded as emitted operations in the result (the source treats any
failure of these primitives as a further panic, which no claim here
concerns).  The header store is modelled as a function from addresses
to header values, read at the single address the code computes. -/

namespace Gzalloc

def PAGE_SIZE : Nat := 4096

def PAGE_MASK : Nat := PAGE_SIZE - 1

/-- round_page from the VM layer: round up to a multiple of PAGE_SIZE. -/
def round_page (x : Nat) : Nat := (x + PAGE_MASK) / PAGE_SIZE * PAGE_SIZE

/-- sizeof(gzhdr_t) on LP64: a zone_t pointer plus two uint32_t fields. -/
def GZHEADER_SIZE : Nat := 16

def GZALLOC_SIGNATURE : Nat := 0xABADCAFE

/-- The pre-init sentinel zone pointer value ((zone_t) 0xDEAD201E). -/
def GZDEADZONE : Nat := 0xDEAD201E

def UINT32_MOD : Nat := 2 ^ 32

def UINT64_MOD : Nat := 2 ^ 64

/-- gzhdr_t: the header written next to each guarded element. -/
structure gzhdr where
  gzone : Nat
  gzsize : Nat
  gzsig : Nat
deriving DecidableEq

/-- The slice of `struct zone` that gzalloc.c reads and writes:
identity (the pointer value, used for the `gzh->gzone != zone`
comparison), element size, exemption flag, counters, and the per-zone
guard state `z->gz` (free element cache array and cursor). -/
structure Zone where
  id : Nat
  elem_size : Nat
  gzalloc_exempt : Bool
  count : Int
  sum_count : Int
  cur_size : Int
  gzfc : List Nat
  gzfc_index : Nat
deriving DecidableEq

/-- The process-wide mutable counters and the early reserve. -/
structure GzState where
  pdzalloc_count : Nat
  pdzfree_count : Nat
  gzalloc_allocated : Int
  gzalloc_freed : Int
  gzalloc_early_alloc : Int
  gzalloc_early_free : Int
  gzalloc_wasted : Int
  gzalloc_reserve : Nat
  gzalloc_reserve_size : Nat
deriving DecidableEq

/-- The process-wide configuration decided at boot, plus the readiness
flags of the collaborators (`kmem_ready`, `vm_page_zone != ZONE_NULL`). -/
structure GzGlobals where
  gzalloc_mode : Bool
  gzalloc_min : Nat
  gzalloc_max : Nat
  gzalloc_uf_mode : Bool
  gzalloc_consistency_checks : Bool
  gzfc_size : Nat
  kmem_ready : Bool
  vm_page_zone_ready : Bool
deriving DecidableEq

/-- The panic sites reachable in the embedded code paths. -/
inductive GzPanic where
  | reserveExhausted
  | assertFailed
  | sigMismatch
  | zoneMismatch
  | sizeMismatch
deriving DecidableEq

/-- Result of gzalloc_alloc: the returned address, the header write it
performed (location and value), and the updated zone and globals. -/
structure AllocOut where
  addr : Nat
  hdrWrite : Option (Nat × gzhdr)
  zone : Zone
  st : GzState
deriving DecidableEq

/-- Result of gzalloc_free: the returned boolean, the vm_map_protect
and vm_map_remove ranges it issued (start, one-past-end), and the
updated zone and globals. -/
structure FreeOut where
  gzfreed : Bool
  protectOp : Option (Nat × Nat)
  removeOp : Option (Nat × Nat)
  zone : Zone
  st : GzState
deriving DecidableEq

/-- The eligibility test shared by gzalloc_alloc and gzalloc_free. -/
def gzalloc_eligible (g : GzGlobals) (zone : Zone) : Bool :=
  g.gzalloc_mode && decide (g.gzalloc_min ≤ zone.elem_size) &&
    decide (zone.elem_size ≤ g.gzalloc_max) && !zone.gzalloc_exempt

/-- Header location computed by gzalloc_free: `addr + elem_size` in
underflow mode (footer), `addr - GZHEADER_SIZE` otherwise. -/
def gzalloc_free_hdr_addr (g : GzGlobals) (elem_size addr : Nat) : Nat :=
  if g.gzalloc_uf_mode then addr + elem_size else addr - GZHEADER_SIZE

/-- Region start computed by gzalloc_free: `addr - PAGE_SIZE` in
underflow mode, `addr - residue` otherwise. -/
def gzalloc_free_saddr (g : GzGlobals) (elem_size addr : Nat) : Nat :=
  if g.gzalloc_uf_mode then addr - PAGE_SIZE
  else addr - (round_page (elem_size + GZHEADER_SIZE) - elem_size)

/-- The free element cache update in gzalloc_free: wrap the cursor at
capacity, read the evicted occupant, store the new address, advance.
Returns (new array, new cursor, evicted address). -/
def gzfc_insert (cap : Nat) (gzfc : List Nat) (idx saddr : Nat) :
    List Nat × Nat × Nat :=
  let i := if cap ≤ idx then 0 else idx
  (gzfc.set i saddr, i + 1, gzfc.getD i 0)

/-- The tail of gzalloc_alloc after backing memory at `gzaddr0` has
been obtained: layout selection, header write, zone and counter
updates, returned address. -/
def gzalloc_alloc_rest (g : GzGlobals) (zone : Zone) (st : GzState)
    (gzaddr0 : Nat) : AllocOut :=
  let rounded_size := round_page (zone.elem_size + GZHEADER_SIZE)
  let residue := rounded_size - zone.elem_size
  let gzaddr := if g.gzalloc_uf_mode then gzaddr0 + PAGE_SIZE else gzaddr0
  let gzhAddr := if g.gzalloc_uf_mode then gzaddr + zone.elem_size
    else gzaddr + residue - GZHEADER_SIZE
  let addr := if g.gzalloc_uf_mode then gzaddr else gzaddr + residue
  let hdr : gzhdr :=
    { gzone := if g.kmem_ready ∧ g.vm_page_zone_ready then zone.id else GZDEADZONE,
      gzsize := zone.elem_size % UINT32_MOD,
      gzsig := GZALLOC_SIGNATURE }
  { addr := addr,
    hdrWrite := some (gzhAddr, hdr),
    zone := { zone with
      count := zone.count + 1, sum_count := zone.sum_count + 1,
      cur_size := zone.cur_size + (rounded_size : Int) },
    st := { st with
      gzalloc_allocated := st.gzalloc_allocated + (rounded_size : Int),
      gzalloc_wasted := st.gzalloc_wasted + ((rounded_size - zone.elem_size : Nat) : Int) } }

/-- gzalloc_alloc.  `kmaAddr` is the page-aligned address returned by
`kernel_memory_allocate` on the non-early path (its failure is a panic
in the source and is not modelled). -/
def gzalloc_alloc (g : GzGlobals) (preemption_level kmaAddr : Nat)
    (zone : Zone) (canblock : Bool) (st : GzState) : Except GzPanic AllocOut :=
  if gzalloc_eligible g zone then
    if preemption_level ≠ 0 ∧ canblock = false then
      .ok { addr := 0, hdrWrite := none, zone := zone, st := st }
    else
      let st := if preemption_level ≠ 0 then
          { st with pdzalloc_count := st.pdzalloc_count + 1 }
        else st
      let rounded_size := round_page (zone.elem_size + GZHEADER_SIZE)
      if ¬ g.kmem_ready ∨ ¬ g.vm_page_zone_ready then
        if st.gzalloc_reserve_size < rounded_size then
          .error .reserveExhausted
        else
          let gzaddr := st.gzalloc_reserve
          let st' := { st with
            gzalloc_reserve := st.gzalloc_reserve + (rounded_size + PAGE_SIZE),
            gzalloc_reserve_size :=
              (st.gzalloc_reserve_size + (UINT64_MOD - (rounded_size + PAGE_SIZE))) % UINT64_MOD,
            gzalloc_early_alloc := st.gzalloc_early_alloc + (rounded_size : Int) }
          .ok (gzalloc_alloc_rest g zone st' gzaddr)
      else
        .ok (gzalloc_alloc_rest g zone st kmaAddr)
  else
    .ok { addr := 0, hdrWrite := none, zone := zone, st := st }

/-- The tail of gzalloc_free once the early-free branch has been
passed: pdzfree accounting, quarantine disposition (vm_map_protect),
cache insertion/eviction, zone bookkeeping, vm_map_remove of the
evicted region, freed/wasted counter updates. -/
def gzalloc_free_main (g : GzGlobals) (preemption_level : Nat)
    (zone : Zone) (addr : Nat) (st : GzState) : FreeOut :=
  let rounded_size := round_page (zone.elem_size + GZHEADER_SIZE)
  let saddr := gzalloc_free_saddr g zone.elem_size addr
  let st := if preemption_level ≠ 0 then
      { st with pdzfree_count := st.pdzfree_count + 1 }
    else st
  let protectOp := if g.gzfc_size ≠ 0 then
      some (saddr, saddr + rounded_size + PAGE_SIZE)
    else none
  let step := if g.gzfc_size ≠ 0 then
      gzfc_insert g.gzfc_size zone.gzfc zone.gzfc_index saddr
    else (zone.gzfc, zone.gzfc_index, saddr)
  let free_addr := step.2.2
  let zone' := { zone with gzfc := step.1, gzfc_index := step.2.1 }
  let zone'' := if free_addr ≠ 0 then
      { zone' with
        count := zone'.count - 1,
        cur_size := zone'.cur_size - (rounded_size : Int) }
    else zone'
  let removeOp := if free_addr ≠ 0 then
      some (free_addr, free_addr + rounded_size + PAGE_SIZE)
    else none
  let st' := if free_addr ≠ 0 then
      { st with
        gzalloc_freed := st.gzalloc_freed + (rounded_size : Int),
        gzalloc_wasted := st.gzalloc_wasted - ((rounded_size - zone.elem_size : Nat) : Int) }
    else st
  { gzfreed := true, protectOp := protectOp, removeOp := removeOp,
    zone := zone'', st := st' }

/-- gzalloc_free.  `mem` is the header store read at the computed
header address. -/
def gzalloc_free (g : GzGlobals) (preemption_level : Nat) (mem : Nat → gzhdr)
    (zone : Zone) (addr : Nat) (st : GzState) : Except GzPanic FreeOut :=
  if gzalloc_eligible g zone then
    let rounded_size := round_page (zone.elem_size + GZHEADER_SIZE)
    let gzhAddr := gzalloc_free_hdr_addr g zone.elem_size addr
    let saddr := gzalloc_free_saddr g zone.elem_size addr
    if saddr % PAGE_SIZE ≠ 0 then .error .assertFailed
    else
      let gzh := mem gzhAddr
      if g.gzalloc_consistency_checks ∧ gzh.gzsig ≠ GZALLOC_SIGNATURE then
        .error .sigMismatch
      else if g.gzalloc_consistency_checks ∧ gzh.gzone ≠ zone.id ∧ gzh.gzone ≠ GZDEADZONE then
        .error .zoneMismatch
      else if g.gzalloc_consistency_checks ∧ gzh.gzsize ≠ zone.elem_size then
        .error .sizeMismatch
      else if ¬ g.kmem_ready ∨ gzh.gzone = GZDEADZONE then
        .ok { gzfreed := true, protectOp := none, removeOp := none, zone := zone,
              st := { st with gzalloc_early_free := st.gzalloc_early_free + (rounded_size : Int) } }
      else
        .ok (gzalloc_free_main g preemption_level zone addr st)
  else
    .ok { gzfreed := false, protectOp := none, removeOp := none, zone := zone, st := st }

/-- gzalloc_zone_init: zero the per-zone guard state, and for an
eligible zone with a nonzero cache capacity carve out and zero the
cache array (from the reserve before kmem is ready, otherwise from
kernel_memory_allocate, whose failure is a panic in the source and is
not modelled).  sizeof(vm_offset_t) = 8. -/
def gzalloc_zone_init (g : GzGlobals) (z : Zone) (st : GzState) :
    Except GzPanic (Zone × GzState) :=
  if g.gzalloc_mode then
    let z := { z with gzfc := [], gzfc_index := 0 }
    if g.gzfc_size ≠ 0 ∧ g.gzalloc_min ≤ z.elem_size ∧ z.elem_size ≤ g.gzalloc_max ∧
        z.gzalloc_exempt = false then
      let gzfcsz := round_page (8 * g.gzfc_size)
      if ¬ g.kmem_ready then
        if st.gzalloc_reserve_size < gzfcsz then .error .reserveExhausted
        else
          .ok ({ z with gzfc := List.replicate g.gzfc_size 0 },
               { st with gzalloc_reserve := st.gzalloc_reserve + gzfcsz,
                         gzalloc_reserve_size := st.gzalloc_reserve_size - gzfcsz })
      else
        .ok ({ z with gzfc := List.replicate g.gzfc_size 0 }, st)
    else
      .ok (z, st)
  else
    .ok (z, st)

/-- Iterated cache insertion, collecting the evicted addresses in
order; used to state the FIFO-eviction property of the ring. -/
def insertRun (cap : Nat) : List Nat → Nat → List Nat → (List Nat × Nat) × List Nat
  | gzfc, idx, [] => ((gzfc, idx), [])
  | gzfc, idx, a :: as =>
    let step := gzfc_insert cap gzfc idx a
    let rest := insertRun cap step.1 step.2.1 as
    (rest.1, step.2.2 :: rest.2)

/-- Iterated gzalloc_free over a list of element addresses, collecting
the vm_map_remove operation (if any) of each call in order. -/
def freeRun (g : GzGlobals) (p : Nat) (mem : Nat → gzhdr) :
    Zone → GzState → List Nat → Except GzPanic (Zone × GzState × List (Option (Nat × Nat)))
  | zone, st, [] => .ok (zone, st, [])
  | zone, st, a :: as =>
    match gzalloc_free g p mem zone a st with
    | .error e => .error e
    | .ok out =>
      match freeRun g p mem out.zone out.st as with
      | .error e => .error e
      | .ok (z', s', rs) => .ok (z', s', out.removeOp :: rs)

/-! Sample concrete values used by the witnesses and counterexamples. -/

/-- A configuration guarding the element-size window [1, 1024], overflow
detection mode, consistency checks on, cache capacity 2, VM ready. -/
def sampleG : GzGlobals :=
  { gzalloc_mode := true, gzalloc_min := 1, gzalloc_max := 1024,
    gzalloc_uf_mode := false, gzalloc_consistency_checks := true, gzfc_size := 2,
    kmem_ready := true, vm_page_zone_ready := true }

/-- A 256-byte zone with a fresh (zeroed) free element cache. -/
def sampleZone : Zone :=
  { id := 5000, elem_size := 256, gzalloc_exempt := false,
    count := 3, sum_count := 10, cur_size := 100, gzfc := [0, 0], gzfc_index := 0 }

def sampleState : GzState :=
  { pdzalloc_count := 0, pdzfree_count := 0, gzalloc_allocated := 0,
    gzalloc_freed := 0, gzalloc_early_alloc := 0, gzalloc_early_free := 0,
    gzalloc_wasted := 0, gzalloc_reserve := 0, gzalloc_reserve_size := 0 }

/-- A header store presenting the uncorrupted header of a 256-byte
element of `sampleZone` at every address. -/
def sampleMem : Nat → gzhdr :=
  fun _ => { gzone := 5000, gzsize := 256, gzsig := GZALLOC_SIGNATURE }

/-- The early-allocation configuration for the C5 failing input: VM not
yet ready, guarding the window [1, 1024]. -/
def C5g : GzGlobals := { sampleG with kmem_ready := false }

/-- The C5 failing zone: a 100-byte zone, so the page-rounded backing
size is exactly one page. -/
def C5zone : Zone := { sampleZone with elem_size := 100 }

/-- The C5 failing state: exactly one page of reserve left. -/
def C5st : GzState := { sampleState with gzalloc_reserve := 4096, gzalloc_reserve_size := 4096 }

/-- The underflow-detection configuration for C9. -/
def C9g : GzGlobals := { sampleG with gzalloc_uf_mode := true }

/-- A 64-byte zone for C9. -/
def C9zone : Zone := { sampleZone with elem_size := 64 }

/-! General reduction lemmas. -/

/-- With preemption level 0, an eligible allocation after VM bring-up
reduces to the common tail on the kernel_memory_allocate address. -/
theorem gzalloc_alloc_ok_rest (g : GzGlobals) (kmaAddr : Nat) (zone : Zone)
    (canblock : Bool) (st : GzState)
    (he : gzalloc_eligible g zone = true)
    (hk : g.kmem_ready = true) (hv : g.vm_page_zone_ready = true) :
    gzalloc_alloc g 0 kmaAddr zone canblock st =
      .ok (gzalloc_alloc_rest g zone st kmaAddr) := by
  simp [gzalloc_alloc, he, hk, hv]

/-- An eligible free with page-aligned region start, an uncorrupted
header, and VM ready reduces to the main (post-early) tail. -/
theorem gzalloc_free_ok_main (g : GzGlobals) (p : Nat) (mem : Nat → gzhdr)
    (zone : Zone) (addr : Nat) (st : GzState)
    (he : gzalloc_eligible g zone = true)
    (hal : gzalloc_free_saddr g zone.elem_size addr % PAGE_SIZE = 0)
    (hsig : (mem (gzalloc_free_hdr_addr g zone.elem_size addr)).gzsig = GZALLOC_SIGNATURE)
    (hzo : (mem (gzalloc_free_hdr_addr g zone.elem_size addr)).gzone = zone.id)
    (hsz : (mem (gzalloc_free_hdr_addr g zone.elem_size addr)).gzsize = zone.elem_size)
    (hk : g.kmem_ready = true)
    (hzd : zone.id ≠ GZDEADZONE) :
    gzalloc_free g p mem zone addr st = .ok (gzalloc_free_main g p zone addr st) := by
  simp [gzalloc_free, he, hal, hsig, hzo, hsz, hk, hzd]

/-! Claim C4. -/

/-- Claim C4, counterexample: with elevated preemption level and
blocking disallowed, gzalloc_alloc returns 0 but does NOT increment
pdzalloc_count (the state is returned unchanged, with the counter still
0), contrary to the claim that each such fallback increments the
deferred-allocation counter. -/
theorem C4_counterexample :
    gzalloc_alloc sampleG 1 16384 sampleZone false sampleState =
      .ok { addr := 0, hdrWrite := none, zone := sampleZone, st := sampleState } ∧
    sampleState.pdzalloc_count = 0 :=
  ⟨rfl, rfl⟩

/-- Claim C4 as amended: with elevated preemption level and blocking
disallowed, an eligible gzalloc_alloc returns 0 (fallback to the
non-guarded path) leaving the zone and every counter unchanged;
pdzalloc_count is instead incremented when the preemption level is
elevated and the caller does permit blocking, in which case the guarded
allocation proceeds. -/
theorem C4_blocking_fallback (g : GzGlobals) (p kmaAddr : Nat) (zone : Zone)
    (canblock : Bool) (st : GzState)
    (he : gzalloc_eligible g zone = true) (hp : p ≠ 0) :
    (canblock = false →
      gzalloc_alloc g p kmaAddr zone canblock st =
        .ok { addr := 0, hdrWrite := none, zone := zone, st := st }) ∧
    (canblock = true → g.kmem_ready = true → g.vm_page_zone_ready = true →
      ∃ out, gzalloc_alloc g p kmaAddr zone canblock st = .ok out ∧
        out.st.pdzalloc_count = st.pdzalloc_count + 1) := by
  constructor
  · intro hcb
    simp [gzalloc_alloc, he, hp, hcb]
  · intro hcb hk hv
    refine ⟨gzalloc_alloc_rest g zone
      { st with pdzalloc_count := st.pdzalloc_count + 1 } kmaAddr, ?_, ?_⟩
    · simp [gzalloc_alloc, he, hp, hcb, hk, hv]
    · simp [gzalloc_alloc_rest]

/-- Witness for C4_blocking_fallback at concrete inputs. -/
theorem C4_blocking_fallback_witness :
    gzalloc_alloc sampleG 1 16384 sampleZone false sampleState =
      .ok { addr := 0, hdrWrite := none, zone := sampleZone, st := sampleState } ∧
    ∃ out, gzalloc_alloc sampleG 1 16384 sampleZone true sampleState = .ok out ∧
      out.st.pdzalloc_count = sampleState.pdzalloc_count + 1 :=
  ⟨(C4_blocking_fallback sampleG 1 16384 sampleZone false sampleState
      (by decide) (by decide)).1 rfl,
   (C4_blocking_fallback sampleG 1 16384 sampleZone true sampleState
      (by decide) (by decide)).2 rfl rfl rfl⟩

/-! Claim C5. -/

/-- Claim C5, failing input evaluated: with exactly rounded_size bytes
of reserve left, the exhaustion check `gzalloc_reserve_size <
rounded_size` does not fire, yet the path consumes rounded_size +
PAGE_SIZE bytes, so the unsigned reserve byte counter wraps around to
2^64 - 4096 — it underflows instead of panicking. -/
theorem C5_reserve_counter_underflows :
    (gzalloc_alloc C5g 0 0 C5zone true C5st).toOption.map
        (fun o => o.st.gzalloc_reserve_size) = some (UINT64_MOD - 4096) ∧
    C5st.gzalloc_reserve_size = 4096 ∧
    round_page (C5zone.elem_size + GZHEADER_SIZE) + PAGE_SIZE = 8192 ∧
    C5st.gzalloc_reserve_size < UINT64_MOD - 4096 :=
  ⟨rfl, rfl, rfl, by decide⟩

/-! Claim C9. -/

/-- Claim C9, counterexample: in underflow mode, allocating a 64-byte
element over a backing region based at 8192 returns address 12288,
which is page-aligned: the element occupies the LOWEST bytes of its
page ([12288, 12352) inside [12288, 16384)), not the highest — its end
does not reach the top of the page — refuting the claim that the
element sits at the very top of its backing page. -/
theorem C9_counterexample :
    (gzalloc_alloc C9g 0 8192 C9zone true sampleState).toOption.map
        (fun o => (o.addr, o.hdrWrite)) =
      some (12288, some (12352,
        { gzone := 5000, gzsize := 64, gzsig := GZALLOC_SIGNATURE })) ∧
    12288 % PAGE_SIZE = 0 ∧
    (12288 + 64) % PAGE_SIZE ≠ 0 ∧
    12288 + 64 ≠ (12288 / PAGE_SIZE + 1) * PAGE_SIZE :=
  ⟨rfl, by decide, by decide, by decide⟩

/-- Claim C9 as amended: in underflow-detection mode every eligible
allocation places the header immediately after the element (a footer at
addr + elem_size), and the returned element address is the base of the
data page directly above the preceding guard page — page-aligned, so
the element occupies the lowest bytes of its backing page, not the
highest. -/
theorem C9_uf_layout (g : GzGlobals) (kmaAddr : Nat) (zone : Zone)
    (canblock : Bool) (st : GzState) (out : AllocOut)
    (huf : g.gzalloc_uf_mode = true)
    (he : gzalloc_eligible g zone = true)
    (hk : g.kmem_ready = true) (hv : g.vm_page_zone_ready = true)
    (hal : kmaAddr % PAGE_SIZE = 0)
    (hout : gzalloc_alloc g 0 kmaAddr zone canblock st = .ok out) :
    out.addr = kmaAddr + PAGE_SIZE ∧
    out.addr % PAGE_SIZE = 0 ∧
    out.hdrWrite = some (out.addr + zone.elem_size,
      { gzone := zone.id, gzsize := zone.elem_size % UINT32_MOD,
        gzsig := GZALLOC_SIGNATURE }) := by
  rw [gzalloc_alloc_ok_rest g kmaAddr zone canblock st he hk hv] at hout
  have hrest : gzalloc_alloc_rest g zone st kmaAddr = out := by
    simpa using hout
  subst hrest
  refine ⟨by simp [gzalloc_alloc_rest, huf], ?_, by simp [gzalloc_alloc_rest, huf, hk, hv]⟩
  have : PAGE_SIZE = 4096 := rfl
  simp [gzalloc_alloc_rest, huf]
  omega

/-- Witness for C9_uf_layout at concrete inputs. -/
theorem C9_uf_layout_witness :
    (gzalloc_alloc_rest C9g C9zone sampleState 8192).addr = 8192 + PAGE_SIZE ∧
    (gzalloc_alloc_rest C9g C9zone sampleState 8192).addr % PAGE_SIZE = 0 ∧
    (gzalloc_alloc_rest C9g C9zone sampleState 8192).hdrWrite =
      some ((gzalloc_alloc_rest C9g C9zone sampleState 8192).addr + C9zone.elem_size,
        { gzone := C9zone.id, gzsize := C9zone.elem_size % UINT32_MOD,
          gzsig := GZALLOC_SIGNATURE }) :=
  C9_uf_layout C9g 8192 C9zone true sampleState
    (gzalloc_alloc_rest C9g C9zone sampleState 8192)
    rfl (by decide) rfl rfl (by decide) rfl

/-! Claims C1 and C3. -/

theorem ite_ok_ne_error {α β : Type} (c : Prop) [Decidable c] (a b : α) (e : β) :
    (if c then Except.ok a else Except.ok b) ≠ Except.error e := by
  split <;> simp

/-- If the recomputed region start is page-aligned, gzalloc_free never
trips the DEBUG page-alignment assertion. -/
theorem gzalloc_free_no_assert (g : GzGlobals) (p : Nat) (mem : Nat → gzhdr)
    (zone : Zone) (addr : Nat) (st : GzState)
    (hal : gzalloc_free_saddr g zone.elem_size addr % PAGE_SIZE = 0) :
    gzalloc_free g p mem zone addr st ≠ .error .assertFailed := by
  simp only [gzalloc_free]
  split
  · simp only [hal, ne_eq, not_true_eq_false, if_neg, if_false]
    split
    · simp
    · split
      · simp
      · split
        · simp
        · exact ite_ok_ne_error _ _ _ _
  · simp

/-- Claim C1: for an eligible allocation after VM bring-up (either
detection mode), gzalloc_free applied to the returned address
recomputes exactly the geometry gzalloc_alloc established: the header
address it derives is the one the allocator wrote the header to, the
region start it derives is the page-aligned base of the backing region
obtained from the guard map, and the page-alignment assertion on that
start can never fire. -/
theorem C1_free_recovers_geometry (g : GzGlobals) (kmaAddr : Nat) (zone : Zone)
    (canblock : Bool) (st : GzState) (out : AllocOut)
    (he : gzalloc_eligible g zone = true)
    (hk : g.kmem_ready = true) (hv : g.vm_page_zone_ready = true)
    (hal : kmaAddr % PAGE_SIZE = 0)
    (hout : gzalloc_alloc g 0 kmaAddr zone canblock st = .ok out) :
    out.hdrWrite = some (gzalloc_free_hdr_addr g zone.elem_size out.addr,
      { gzone := zone.id, gzsize := zone.elem_size % UINT32_MOD,
        gzsig := GZALLOC_SIGNATURE }) ∧
    gzalloc_free_saddr g zone.elem_size out.addr = kmaAddr ∧
    gzalloc_free_saddr g zone.elem_size out.addr % PAGE_SIZE = 0 ∧
    ∀ mem st2, gzalloc_free g 0 mem zone out.addr st2 ≠ .error .assertFailed := by
  rw [gzalloc_alloc_ok_rest g kmaAddr zone canblock st he hk hv] at hout
  have hrest : gzalloc_alloc_rest g zone st kmaAddr = out := by simpa using hout
  subst hrest
  have hsad : gzalloc_free_saddr g zone.elem_size
      (gzalloc_alloc_rest g zone st kmaAddr).addr = kmaAddr := by
    by_cases huf : g.gzalloc_uf_mode = true <;>
      simp [gzalloc_alloc_rest, gzalloc_free_saddr, huf]
  have hhdr : (gzalloc_alloc_rest g zone st kmaAddr).hdrWrite =
      some (gzalloc_free_hdr_addr g zone.elem_size
          (gzalloc_alloc_rest g zone st kmaAddr).addr,
        { gzone := zone.id, gzsize := zone.elem_size % UINT32_MOD,
          gzsig := GZALLOC_SIGNATURE }) := by
    by_cases huf : g.gzalloc_uf_mode = true <;>
      simp [gzalloc_alloc_rest, gzalloc_free_hdr_addr, huf, hk, hv]
  refine ⟨hhdr, hsad, by rw [hsad]; exact hal, fun mem st2 => ?_⟩
  exact gzalloc_free_no_assert g 0 mem zone _ st2 (by rw [hsad]; exact hal)

/-- Witness for C1_free_recovers_geometry at concrete inputs. -/
theorem C1_free_recovers_geometry_witness :
    (gzalloc_alloc_rest sampleG sampleZone sampleState 16384).hdrWrite =
      some (gzalloc_free_hdr_addr sampleG sampleZone.elem_size
          (gzalloc_alloc_rest sampleG sampleZone sampleState 16384).addr,
        { gzone := sampleZone.id, gzsize := sampleZone.elem_size % UINT32_MOD,
          gzsig := GZALLOC_SIGNATURE }) ∧
    gzalloc_free_saddr sampleG sampleZone.elem_size
      (gzalloc_alloc_rest sampleG sampleZone sampleState 16384).addr = 16384 ∧
    gzalloc_free sampleG 0 sampleMem sampleZone
      (gzalloc_alloc_rest sampleG sampleZone sampleState 16384).addr sampleState ≠
      .error .assertFailed :=
  ⟨(C1_free_recovers_geometry sampleG 16384 sampleZone true sampleState
      (gzalloc_alloc_rest sampleG sampleZone sampleState 16384)
      (by decide) rfl rfl (by decide) rfl).1,
   (C1_free_recovers_geometry sampleG 16384 sampleZone true sampleState
      (gzalloc_alloc_rest sampleG sampleZone sampleState 16384)
      (by decide) rfl rfl (by decide) rfl).2.1,
   (C1_free_recovers_geometry sampleG 16384 sampleZone true sampleState
      (gzalloc_alloc_rest sampleG sampleZone sampleState 16384)
      (by decide) rfl rfl (by decide) rfl).2.2.2 sampleMem sampleState⟩

/-- Claim C3: with consistency checks enabled, an eligible free (with
page-aligned recomputed region start, so the assertion passes) aborts
if and only if one of the three violations holds, and the panic
reported respects the check order — signature first, then zone
identity (the pre-init sentinel being allowed), then recorded size;
with consistency checks disabled none of those three aborts occurs. -/
theorem C3_consistency_validation (g : GzGlobals) (p : Nat) (mem : Nat → gzhdr)
    (zone : Zone) (addr : Nat) (st : GzState)
    (he : gzalloc_eligible g zone = true)
    (hal : gzalloc_free_saddr g zone.elem_size addr % PAGE_SIZE = 0) :
    (g.gzalloc_consistency_checks = true →
      ((gzalloc_free g p mem zone addr st = .error .sigMismatch ↔
         (mem (gzalloc_free_hdr_addr g zone.elem_size addr)).gzsig ≠ GZALLOC_SIGNATURE) ∧
       (gzalloc_free g p mem zone addr st = .error .zoneMismatch ↔
         ((mem (gzalloc_free_hdr_addr g zone.elem_size addr)).gzsig = GZALLOC_SIGNATURE ∧
          (mem (gzalloc_free_hdr_addr g zone.elem_size addr)).gzone ≠ zone.id ∧
          (mem (gzalloc_free_hdr_addr g zone.elem_size addr)).gzone ≠ GZDEADZONE)) ∧
       (gzalloc_free g p mem zone addr st = .error .sizeMismatch ↔
         ((mem (gzalloc_free_hdr_addr g zone.elem_size addr)).gzsig = GZALLOC_SIGNATURE ∧
          ((mem (gzalloc_free_hdr_addr g zone.elem_size addr)).gzone = zone.id ∨
           (mem (gzalloc_free_hdr_addr g zone.elem_size addr)).gzone = GZDEADZONE) ∧
          (mem (gzalloc_free_hdr_addr g zone.elem_size addr)).gzsize ≠ zone.elem_size)))) ∧
    (g.gzalloc_consistency_checks = false →
      gzalloc_free g p mem zone addr st ≠ .error .sigMismatch ∧
      gzalloc_free g p mem zone addr st ≠ .error .zoneMismatch ∧
      gzalloc_free g p mem zone addr st ≠ .error .sizeMismatch) := by
  constructor
  · intro hcc
    by_cases h1 : (mem (gzalloc_free_hdr_addr g zone.elem_size addr)).gzsig = GZALLOC_SIGNATURE <;>
      by_cases h2 : (mem (gzalloc_free_hdr_addr g zone.elem_size addr)).gzone = zone.id <;>
        by_cases h3 : (mem (gzalloc_free_hdr_addr g zone.elem_size addr)).gzone = GZDEADZONE <;>
          by_cases h4 : (mem (gzalloc_free_hdr_addr g zone.elem_size addr)).gzsize = zone.elem_size <;>
            simp [gzalloc_free, he, hal, hcc, h1, h2, h3, h4, ite_ok_ne_error]
  · intro hcc
    refine ⟨?_, ?_, ?_⟩ <;> simp [gzalloc_free, he, hal, hcc, ite_ok_ne_error]

/-- Witness for C3_consistency_validation: a corrupted signature (0x7)
at the header of a 256-byte element deterministically produces the
signature-mismatch panic. -/
theorem C3_consistency_validation_witness :
    gzalloc_free sampleG 0 (fun _ => { gzone := 5000, gzsize := 256, gzsig := 7 })
      sampleZone 20224 sampleState = .error .sigMismatch :=
  ((C3_consistency_validation sampleG 0
      (fun _ => { gzone := 5000, gzsize := 256, gzsig := 7 })
      sampleZone 20224 sampleState (by decide) (by decide)).1 rfl).1.mpr (by decide)

/-! Claims C6, C7 and C8. -/

/-- Claim C8: an eligible free whose header passes (or skips) the
consistency checks and that concerns an early allocation — VM not yet
ready, or the recorded zone equal to the pre-init sentinel — is
reported handled and leaked: only gzalloc_early_free grows (by the
rounded size); the zone, the quarantine cache, and every other counter
are untouched, and no protect or remove operation is issued. -/
theorem C8_early_free_leaked (g : GzGlobals) (p : Nat) (mem : Nat → gzhdr)
    (zone : Zone) (addr : Nat) (st : GzState)
    (he : gzalloc_eligible g zone = true)
    (hal : gzalloc_free_saddr g zone.elem_size addr % PAGE_SIZE = 0)
    (hearly : g.kmem_ready = false ∨
      (mem (gzalloc_free_hdr_addr g zone.elem_size addr)).gzone = GZDEADZONE)
    (hck : g.gzalloc_consistency_checks = true →
      ((mem (gzalloc_free_hdr_addr g zone.elem_size addr)).gzsig = GZALLOC_SIGNATURE ∧
       ((mem (gzalloc_free_hdr_addr g zone.elem_size addr)).gzone = zone.id ∨
        (mem (gzalloc_free_hdr_addr g zone.elem_size addr)).gzone = GZDEADZONE) ∧
       (mem (gzalloc_free_hdr_addr g zone.elem_size addr)).gzsize = zone.elem_size)) :
    gzalloc_free g p mem zone addr st =
      .ok { gzfreed := true, protectOp := none, removeOp := none, zone := zone,
            st := { st with gzalloc_early_free := st.gzalloc_early_free +
              (round_page (zone.elem_size + GZHEADER_SIZE) : Int) } } := by
  by_cases hcc : g.gzalloc_consistency_checks = true
  · obtain ⟨hsig, hzo, hsz⟩ := hck hcc
    rcases hearly with hk | hd
    · rcases hzo with hzo | hzo <;>
        simp [gzalloc_free, he, hal, hcc, hsig, hzo, hsz, hk]
    · simp [gzalloc_free, he, hal, hcc, hsig, hd, hsz]
  · simp only [Bool.not_eq_true] at hcc
    rcases hearly with hk | hd
    · simp [gzalloc_free, he, hal, hcc, hk]
    · simp [gzalloc_free, he, hal, hcc, hd]

/-- Witness for C8_early_free_leaked: a free presenting the pre-init
sentinel header is handled and counted only in gzalloc_early_free. -/
theorem C8_early_free_leaked_witness :
    gzalloc_free sampleG 0
      (fun _ => { gzone := GZDEADZONE, gzsize := 256, gzsig := GZALLOC_SIGNATURE })
      sampleZone 20224 sampleState =
      .ok { gzfreed := true, protectOp := none, removeOp := none, zone := sampleZone,
            st := { sampleState with gzalloc_early_free := sampleState.gzalloc_early_free +
              (round_page (sampleZone.elem_size + GZHEADER_SIZE) : Int) } } :=
  C8_early_free_leaked sampleG 0
    (fun _ => { gzone := GZDEADZONE, gzsize := 256, gzsig := GZALLOC_SIGNATURE })
    sampleZone 20224 sampleState (by decide) (by decide) (Or.inr rfl)
    (fun _ => ⟨rfl, Or.inr rfl, rfl⟩)

/-- Claim C6: an eligible non-early free with quarantine capacity
configured to zero skips the quarantine entirely — no protection
change is issued — and immediately releases the full backing extent
(rounded size plus the guard page) starting at the recomputed region
base, decrementing the zone's element count and byte total in the same
call. -/
theorem C6_fc0_immediate_release (g : GzGlobals) (p : Nat) (mem : Nat → gzhdr)
    (zone : Zone) (addr : Nat) (st : GzState)
    (he : gzalloc_eligible g zone = true)
    (hal : gzalloc_free_saddr g zone.elem_size addr % PAGE_SIZE = 0)
    (hsig : (mem (gzalloc_free_hdr_addr g zone.elem_size addr)).gzsig = GZALLOC_SIGNATURE)
    (hzo : (mem (gzalloc_free_hdr_addr g zone.elem_size addr)).gzone = zone.id)
    (hsz : (mem (gzalloc_free_hdr_addr g zone.elem_size addr)).gzsize = zone.elem_size)
    (hk : g.kmem_ready = true)
    (hzd : zone.id ≠ GZDEADZONE)
    (h0 : g.gzfc_size = 0)
    (hs0 : gzalloc_free_saddr g zone.elem_size addr ≠ 0) :
    ∃ out, gzalloc_free g p mem zone addr st = .ok out ∧
      out.gzfreed = true ∧
      out.protectOp = none ∧
      out.removeOp = some (gzalloc_free_saddr g zone.elem_size addr,
        gzalloc_free_saddr g zone.elem_size addr +
          round_page (zone.elem_size + GZHEADER_SIZE) + PAGE_SIZE) ∧
      out.zone.count = zone.count - 1 ∧
      out.zone.cur_size = zone.cur_size - (round_page (zone.elem_size + GZHEADER_SIZE) : Int) := by
  refine ⟨gzalloc_free_main g p zone addr st,
    gzalloc_free_ok_main g p mem zone addr st he hal hsig hzo hsz hk hzd, ?_, ?_, ?_, ?_, ?_⟩ <;>
    simp [gzalloc_free_main, h0, hs0]

/-- Witness for C6_fc0_immediate_release at concrete inputs. -/
theorem C6_fc0_immediate_release_witness :
    ∃ out, gzalloc_free { sampleG with gzfc_size := 0 } 0 sampleMem
        sampleZone 20224 sampleState = .ok out ∧
      out.gzfreed = true ∧
      out.protectOp = none ∧
      out.removeOp = some (gzalloc_free_saddr { sampleG with gzfc_size := 0 }
          sampleZone.elem_size 20224,
        gzalloc_free_saddr { sampleG with gzfc_size := 0 } sampleZone.elem_size 20224 +
          round_page (sampleZone.elem_size + GZHEADER_SIZE) + PAGE_SIZE) ∧
      out.zone.count = sampleZone.count - 1 ∧
      out.zone.cur_size = sampleZone.cur_size -
        (round_page (sampleZone.elem_size + GZHEADER_SIZE) : Int) :=
  C6_fc0_immediate_release { sampleG with gzfc_size := 0 } 0 sampleMem
    sampleZone 20224 sampleState (by decide) (by decide) rfl rfl rfl rfl
    (by decide) rfl (by decide)

/-- Claim C7: an eligible allocation of an element of size S increases
gzalloc_wasted by exactly pageRound(S + headerSize) - S, and the free
of that element that produces an eviction (here: quarantine capacity
zero, so the backing region is released by that very free) decreases
gzalloc_wasted by exactly the same amount. -/
theorem C7_wasted_counter (g : GzGlobals) (kmaAddr : Nat) (zone : Zone)
    (canblock : Bool) (st : GzState) (mem : Nat → gzhdr) (st2 : GzState) (out : AllocOut)
    (he : gzalloc_eligible g zone = true)
    (hk : g.kmem_ready = true) (hv : g.vm_page_zone_ready = true)
    (hal : kmaAddr % PAGE_SIZE = 0)
    (hnz : kmaAddr ≠ 0)
    (h0 : g.gzfc_size = 0)
    (hzd : zone.id ≠ GZDEADZONE)
    (hsz32 : zone.elem_size < UINT32_MOD)
    (hout : gzalloc_alloc g 0 kmaAddr zone canblock st = .ok out)
    (hmem : mem (gzalloc_free_hdr_addr g zone.elem_size out.addr) =
      { gzone := zone.id, gzsize := zone.elem_size % UINT32_MOD,
        gzsig := GZALLOC_SIGNATURE }) :
    out.st.gzalloc_wasted = st.gzalloc_wasted +
      ((round_page (zone.elem_size + GZHEADER_SIZE) - zone.elem_size : Nat) : Int) ∧
    ∃ fout, gzalloc_free g 0 mem out.zone out.addr st2 = .ok fout ∧
      fout.removeOp = some (kmaAddr,
        kmaAddr + round_page (zone.elem_size + GZHEADER_SIZE) + PAGE_SIZE) ∧
      fout.st.gzalloc_wasted = st2.gzalloc_wasted -
        ((round_page (zone.elem_size + GZHEADER_SIZE) - zone.elem_size : Nat) : Int) := by
  rw [gzalloc_alloc_ok_rest g kmaAddr zone canblock st he hk hv] at hout
  have hrest : gzalloc_alloc_rest g zone st kmaAddr = out := by simpa using hout
  subst hrest
  have hzfields : (gzalloc_alloc_rest g zone st kmaAddr).zone.elem_size = zone.elem_size ∧
      (gzalloc_alloc_rest g zone st kmaAddr).zone.id = zone.id ∧
      (gzalloc_alloc_rest g zone st kmaAddr).zone.gzalloc_exempt = zone.gzalloc_exempt ∧
      (gzalloc_alloc_rest g zone st kmaAddr).zone.count = zone.count + 1 ∧
      (gzalloc_alloc_rest g zone st kmaAddr).zone.cur_size =
        zone.cur_size + (round_page (zone.elem_size + GZHEADER_SIZE) : Int) := by
    by_cases huf : g.gzalloc_uf_mode = true <;> simp [gzalloc_alloc_rest, huf]
  have he' : gzalloc_eligible g (gzalloc_alloc_rest g zone st kmaAddr).zone = true := by
    simp only [gzalloc_eligible] at he ⊢
    rw [hzfields.1, hzfields.2.2.1]
    exact he
  have hsad : gzalloc_free_saddr g zone.elem_size
      (gzalloc_alloc_rest g zone st kmaAddr).addr = kmaAddr := by
    by_cases huf : g.gzalloc_uf_mode = true <;>
      simp [gzalloc_alloc_rest, gzalloc_free_saddr, huf]
  constructor
  · by_cases huf : g.gzalloc_uf_mode = true <;> simp [gzalloc_alloc_rest, huf]
  · refine ⟨gzalloc_free_main g 0 (gzalloc_alloc_rest g zone st kmaAddr).zone
      (gzalloc_alloc_rest g zone st kmaAddr).addr st2, ?_, ?_, ?_⟩
    · refine gzalloc_free_ok_main g 0 mem _ _ st2 he' ?_ ?_ ?_ ?_ hk ?_
      · rw [hzfields.1, hsad]; exact hal
      · rw [hzfields.1, hmem]
      · rw [hzfields.1, hmem, hzfields.2.1]
      · rw [hzfields.1, hmem]
        simp [Nat.mod_eq_of_lt hsz32]
      · rw [hzfields.2.1]; exact hzd
    · simp only [gzalloc_free_main, h0, hzfields.1, hsad]
      simp [hnz]
    · simp only [gzalloc_free_main, h0, hzfields.1, hsad]
      simp [hnz]

/-- Witness for C7_wasted_counter at concrete inputs. -/
theorem C7_wasted_counter_witness :
    (gzalloc_alloc_rest { sampleG with gzfc_size := 0 } sampleZone sampleState 16384).st.gzalloc_wasted =
      sampleState.gzalloc_wasted +
        ((round_page (sampleZone.elem_size + GZHEADER_SIZE) - sampleZone.elem_size : Nat) : Int) ∧
    ∃ fout, gzalloc_free { sampleG with gzfc_size := 0 } 0 sampleMem
        (gzalloc_alloc_rest { sampleG with gzfc_size := 0 } sampleZone sampleState 16384).zone
        (gzalloc_alloc_rest { sampleG with gzfc_size := 0 } sampleZone sampleState 16384).addr
        sampleState = .ok fout ∧
      fout.removeOp = some (16384,
        16384 + round_page (sampleZone.elem_size + GZHEADER_SIZE) + PAGE_SIZE) ∧
      fout.st.gzalloc_wasted = sampleState.gzalloc_wasted -
        ((round_page (sampleZone.elem_size + GZHEADER_SIZE) - sampleZone.elem_size : Nat) : Int) :=
  C7_wasted_counter { sampleG with gzfc_size := 0 } 16384 sampleZone true
    sampleState sampleMem sampleState
    (gzalloc_alloc_rest { sampleG with gzfc_size := 0 } sampleZone sampleState 16384)
    (by decide) rfl rfl (by decide) (by decide) rfl (by decide) (by decide) rfl rfl

/-! Claim C2: FIFO eviction of the free element cache ring. -/

theorem getD_append_length (l r : List Nat) (d : Nat) :
    (l ++ r).getD l.length d = r.getD 0 d := by
  induction l with
  | nil => rfl
  | cons x xs ih => simpa using ih

theorem set_append_length (l r : List Nat) (a : Nat) :
    (l ++ r).set l.length a = l ++ r.set 0 a := by
  induction l with
  | nil => rfl
  | cons x xs ih => simp [ih]

theorem insertRun_append (cap : Nat) (gzfc : List Nat) (idx : Nat) (xs ys : List Nat) :
    insertRun cap gzfc idx (xs ++ ys) =
      ((insertRun cap (insertRun cap gzfc idx xs).1.1 (insertRun cap gzfc idx xs).1.2 ys).1,
       (insertRun cap gzfc idx xs).2 ++
         (insertRun cap (insertRun cap gzfc idx xs).1.1 (insertRun cap gzfc idx xs).1.2 ys).2) := by
  induction xs generalizing gzfc idx with
  | nil => simp [insertRun]
  | cons x xs ih => simp [insertRun, ih]

/-- Filling an unwrapped ring: while the cursor is inside the zeroed
tail, every insertion evicts 0 and appends behind the occupied prefix. -/
theorem insertRun_fill (cap : Nat) (as : List Nat) : ∀ (taken : List Nat) (m : Nat),
    taken.length + m = cap → as.length ≤ m →
    insertRun cap (taken ++ List.replicate m 0) taken.length as =
      ((taken ++ as ++ List.replicate (m - as.length) 0, taken.length + as.length),
       List.replicate as.length 0) := by
  induction as with
  | nil => intro taken m hlen hm; simp [insertRun]
  | cons a as ih =>
    intro taken m hlen hm
    obtain ⟨m', rfl⟩ : ∃ m', m = m' + 1 := ⟨m - 1, by simp at hm; omega⟩
    have hwrap : ¬ (cap ≤ taken.length) := by omega
    have hev : (taken ++ List.replicate (m' + 1) 0).getD taken.length 0 = 0 := by
      rw [getD_append_length]; simp [List.replicate_succ]
    have hset : (taken ++ List.replicate (m' + 1) 0).set taken.length a =
        (taken ++ [a]) ++ List.replicate m' 0 := by
      rw [set_append_length]; simp [List.replicate_succ]
    have hih := ih (taken ++ [a]) m' (by simp; omega) (by simp at hm ⊢; omega)
    simp only [insertRun, gzfc_insert, if_neg hwrap, hev, hset]
    rw [show (taken ++ [a]).length = taken.length + 1 from by simp] at hih
    rw [hih]
    simp [List.append_assoc, List.replicate_succ]
    omega

/-- Claim C2: the free element cache is a fixed-capacity ring — an
insertion never changes the array's length, so it never holds more
than its configured capacity of entries — and, starting from a freshly
zeroed cache, admitting capacity + 1 addresses yields no eviction
(address 0) for the first capacity admissions and then evicts exactly
the first-admitted address, the cursor having wrapped to slot 0. -/
theorem C2_ring_fifo (cap : Nat) (as : List Nat)
    (hcap : 0 < cap) (hlen : as.length = cap + 1) :
    (insertRun cap (List.replicate cap 0) 0 as).2 =
      List.replicate cap 0 ++ [as.getD 0 0] ∧
    (insertRun cap (List.replicate cap 0) 0 as).1.1.length = cap ∧
    ∀ (l : List Nat) (i a : Nat), ((gzfc_insert cap l i a).1).length = l.length := by
  have hsplit : as = as.take cap ++ as.drop cap := (List.take_append_drop cap as).symm
  have hts : (as.take cap).length = cap := by simp [hlen]
  have hdrop : ∃ b, as.drop cap = [b] := by
    have h1 : (as.drop cap).length = 1 := by simp [hlen]
    match hd : as.drop cap with
    | [] => rw [hd] at h1; simp at h1
    | [b] => exact ⟨b, rfl⟩
    | b :: c :: t => rw [hd] at h1; simp at h1
  obtain ⟨b, hb⟩ := hdrop
  have hfill := insertRun_fill cap (as.take cap) [] cap (by simp) (by omega)
  simp only [List.nil_append, List.length_nil, Nat.zero_add, hts] at hfill
  have hfill' : insertRun cap (List.replicate cap 0) 0 (as.take cap) =
      ((as.take cap, cap), List.replicate cap 0) := by
    rw [hfill]; simp [hts]
  have hget0 : (as.take cap).getD 0 0 = as.getD 0 0 := by
    obtain ⟨a0, t, rfl⟩ : ∃ a0 t, as = a0 :: t := by
      match as, hlen with
      | a0 :: t, _ => exact ⟨a0, t, rfl⟩
    rw [List.take_cons (by omega : 0 < cap)]
    simp
  refine ⟨?_, ?_, ?_⟩
  · conv in insertRun cap _ 0 as => rw [hsplit, hb]
    rw [insertRun_append, hfill']
    simp only [insertRun, gzfc_insert]
    simp
    simpa [List.getD] using hget0
  · conv in insertRun cap _ 0 as => rw [hsplit, hb]
    rw [insertRun_append, hfill']
    simp [insertRun, gzfc_insert, hts]
  · intro l i a; simp [gzfc_insert]

/-- Witness for C2_ring_fifo: capacity 2, admitting 111, 222, 333
evicts nothing, nothing, then 111. -/
theorem C2_ring_fifo_witness :
    (insertRun 2 (List.replicate 2 0) 0 [111, 222, 333]).2 =
      List.replicate 2 0 ++ [List.getD [111, 222, 333] 0 0] ∧
    (insertRun 2 (List.replicate 2 0) 0 [111, 222, 333]).1.1.length = 2 ∧
    ∀ (l : List Nat) (i a : Nat), ((gzfc_insert 2 l i a).1).length = l.length :=
  C2_ring_fifo 2 [111, 222, 333] (by decide) (by decide)

/-! Claim C10: frame effect of frees against a freshly initialized cache. -/

theorem pdz_ite_freed (p : Nat) (st : GzState) :
    (if p ≠ 0 then { st with pdzfree_count := st.pdzfree_count + 1 } else st).gzalloc_freed =
      st.gzalloc_freed := by
  split <;> rfl

theorem pdz_ite_wasted (p : Nat) (st : GzState) :
    (if p ≠ 0 then { st with pdzfree_count := st.pdzfree_count + 1 } else st).gzalloc_wasted =
      st.gzalloc_wasted := by
  split <;> rfl

/-- A single eligible non-early free whose cache slot holds 0 (the
unwrapped regime of a freshly zeroed cache): the address is quarantined
at the cursor, nothing is evicted, no region is removed, and the zone's
count/byte totals and the freed/wasted counters are untouched. -/
theorem gzalloc_free_step_noevict (g : GzGlobals) (p : Nat) (mem : Nat → gzhdr)
    (zone : Zone) (a : Nat) (st : GzState)
    (he : gzalloc_eligible g zone = true)
    (hal : gzalloc_free_saddr g zone.elem_size a % PAGE_SIZE = 0)
    (hsig : (mem (gzalloc_free_hdr_addr g zone.elem_size a)).gzsig = GZALLOC_SIGNATURE)
    (hzo : (mem (gzalloc_free_hdr_addr g zone.elem_size a)).gzone = zone.id)
    (hsz : (mem (gzalloc_free_hdr_addr g zone.elem_size a)).gzsize = zone.elem_size)
    (hk : g.kmem_ready = true)
    (hzd : zone.id ≠ GZDEADZONE)
    (hidx : zone.gzfc_index < g.gzfc_size)
    (hev : zone.gzfc.getD zone.gzfc_index 0 = 0) :
    ∃ out, gzalloc_free g p mem zone a st = .ok out ∧
      out.removeOp = none ∧
      out.zone.gzfc = zone.gzfc.set zone.gzfc_index (gzalloc_free_saddr g zone.elem_size a) ∧
      out.zone.gzfc_index = zone.gzfc_index + 1 ∧
      out.zone.elem_size = zone.elem_size ∧
      out.zone.id = zone.id ∧
      out.zone.gzalloc_exempt = zone.gzalloc_exempt ∧
      out.zone.count = zone.count ∧
      out.zone.cur_size = zone.cur_size ∧
      out.st.gzalloc_freed = st.gzalloc_freed ∧
      out.st.gzalloc_wasted = st.gzalloc_wasted := by
  have hcap : g.gzfc_size ≠ 0 := by omega
  have hwrap : ¬ (g.gzfc_size ≤ zone.gzfc_index) := by omega
  have hev' : zone.gzfc[zone.gzfc_index]?.getD 0 = 0 := by
    rw [← List.getD_eq_getElem?_getD]; exact hev
  refine ⟨gzalloc_free_main g p zone a st,
    gzalloc_free_ok_main g p mem zone a st he hal hsig hzo hsz hk hzd, ?_⟩
  simp [gzalloc_free_main, gzfc_insert, hcap, hwrap, hev', pdz_ite_freed, pdz_ite_wasted]
  exact ⟨by split <;> rfl, by split <;> rfl⟩

/-- The wrapping free of a full cache whose slot 0 holds a nonzero
address: the cursor wraps to 0, the first-quarantined region is evicted
and removed, and the zone totals and freed/wasted counters are updated. -/
theorem gzalloc_free_step_wrap (g : GzGlobals) (p : Nat) (mem : Nat → gzhdr)
    (zone : Zone) (a : Nat) (st : GzState)
    (he : gzalloc_eligible g zone = true)
    (hal : gzalloc_free_saddr g zone.elem_size a % PAGE_SIZE = 0)
    (hsig : (mem (gzalloc_free_hdr_addr g zone.elem_size a)).gzsig = GZALLOC_SIGNATURE)
    (hzo : (mem (gzalloc_free_hdr_addr g zone.elem_size a)).gzone = zone.id)
    (hsz : (mem (gzalloc_free_hdr_addr g zone.elem_size a)).gzsize = zone.elem_size)
    (hk : g.kmem_ready = true)
    (hzd : zone.id ≠ GZDEADZONE)
    (hcap : g.gzfc_size ≠ 0)
    (hidx : g.gzfc_size ≤ zone.gzfc_index)
    (hev : zone.gzfc.getD 0 0 ≠ 0) :
    ∃ out, gzalloc_free g p mem zone a st = .ok out ∧
      out.removeOp = some (zone.gzfc.getD 0 0,
        zone.gzfc.getD 0 0 + round_page (zone.elem_size + GZHEADER_SIZE) + PAGE_SIZE) ∧
      out.zone.count = zone.count - 1 ∧
      out.zone.cur_size = zone.cur_size - (round_page (zone.elem_size + GZHEADER_SIZE) : Int) ∧
      out.st.gzalloc_freed = st.gzalloc_freed + (round_page (zone.elem_size + GZHEADER_SIZE) : Int) ∧
      out.st.gzalloc_wasted = st.gzalloc_wasted -
        ((round_page (zone.elem_size + GZHEADER_SIZE) - zone.elem_size : Nat) : Int) := by
  have hev' : zone.gzfc[0]?.getD 0 ≠ 0 := by
    rw [← List.getD_eq_getElem?_getD]; exact hev
  refine ⟨gzalloc_free_main g p zone a st,
    gzalloc_free_ok_main g p mem zone a st he hal hsig hzo hsz hk hzd, ?_⟩
  simp [gzalloc_free_main, gzfc_insert, hcap, hidx, hev', pdz_ite_freed, pdz_ite_wasted,
    List.getD_eq_getElem?_getD]
  exact ⟨by split <;> rfl, by split <;> rfl⟩

/-- Eligibility only inspects the element size and the exemption flag. -/
theorem eligible_congr (g : GzGlobals) (z z' : Zone)
    (h1 : z'.elem_size = z.elem_size) (h2 : z'.gzalloc_exempt = z.gzalloc_exempt)
    (he : gzalloc_eligible g z = true) : gzalloc_eligible g z' = true := by
  simp only [gzalloc_eligible] at he ⊢
  rw [h1, h2]
  exact he

theorem freeRun_append (g : GzGlobals) (p : Nat) (mem : Nat → gzhdr)
    (xs ys : List Nat) : ∀ (zone : Zone) (st : GzState) (zm : Zone) (sm : GzState)
    (rs1 : List (Option (Nat × Nat))) (z2 : Zone) (s2 : GzState)
    (rs2 : List (Option (Nat × Nat))),
    freeRun g p mem zone st xs = .ok (zm, sm, rs1) →
    freeRun g p mem zm sm ys = .ok (z2, s2, rs2) →
    freeRun g p mem zone st (xs ++ ys) = .ok (z2, s2, rs1 ++ rs2) := by
  induction xs with
  | nil =>
    intro zone st zm sm rs1 z2 s2 rs2 h1 h2
    simp only [freeRun] at h1
    rw [Except.ok.injEq, Prod.mk.injEq, Prod.mk.injEq] at h1
    obtain ⟨rfl, rfl, rfl⟩ := h1
    simpa using h2
  | cons x xs ih =>
    intro zone st zm sm rs1 z2 s2 rs2 h1 h2
    simp only [freeRun] at h1
    split at h1
    · exact absurd h1 (by simp)
    · split at h1
      · exact absurd h1 (by simp)
      · rename_i sc1 out hfx sc2 z' s' rs hrest
        rw [Except.ok.injEq, Prod.mk.injEq, Prod.mk.injEq] at h1
        obtain ⟨rfl, rfl, rfl⟩ := h1
        have hind := ih out.zone out.st z' s' rs z2 s2 rs2 hrest h2
        rw [List.cons_append]
        simp only [freeRun, hfx, hind, List.cons_append]

/-- Running frees through the unwrapped regime of a partially filled
cache: every step quarantines without evicting, so no remove operation
is issued and the zone totals and freed/wasted counters are unchanged. -/
theorem freeRun_noevict (g : GzGlobals) (p : Nat) (mem : Nat → gzhdr) (as : List Nat) :
    ∀ (zone : Zone) (st : GzState) (taken : List Nat) (m : Nat),
    gzalloc_eligible g zone = true →
    g.kmem_ready = true →
    zone.id ≠ GZDEADZONE →
    (∀ a ∈ as,
      gzalloc_free_saddr g zone.elem_size a % PAGE_SIZE = 0 ∧
      (mem (gzalloc_free_hdr_addr g zone.elem_size a)).gzsig = GZALLOC_SIGNATURE ∧
      (mem (gzalloc_free_hdr_addr g zone.elem_size a)).gzone = zone.id ∧
      (mem (gzalloc_free_hdr_addr g zone.elem_size a)).gzsize = zone.elem_size) →
    zone.gzfc = taken ++ List.replicate m 0 →
    zone.gzfc_index = taken.length →
    taken.length + m = g.gzfc_size →
    as.length ≤ m →
    ∃ z' s', freeRun g p mem zone st as =
        .ok (z', s', List.replicate as.length none) ∧
      z'.gzfc = (taken ++ as.map (gzalloc_free_saddr g zone.elem_size)) ++
        List.replicate (m - as.length) 0 ∧
      z'.gzfc_index = taken.length + as.length ∧
      z'.elem_size = zone.elem_size ∧
      z'.id = zone.id ∧
      z'.gzalloc_exempt = zone.gzalloc_exempt ∧
      z'.count = zone.count ∧
      z'.cur_size = zone.cur_size ∧
      s'.gzalloc_freed = st.gzalloc_freed ∧
      s'.gzalloc_wasted = st.gzalloc_wasted := by
  induction as with
  | nil =>
    intro zone st taken m he hk hzd hmem hfc hix hlen hm
    exact ⟨zone, st, by simp [freeRun], by simpa using hfc, by simpa using hix,
      rfl, rfl, rfl, rfl, rfl, rfl, rfl⟩
  | cons a as ih =>
    intro zone st taken m he hk hzd hmem hfc hix hlen hm
    obtain ⟨m', rfl⟩ : ∃ m', m = m' + 1 := ⟨m - 1, by simp at hm; omega⟩
    obtain ⟨hala, hsiga, hzoa, hsza⟩ := hmem a (by simp)
    have hidx : zone.gzfc_index < g.gzfc_size := by omega
    have hev : zone.gzfc.getD zone.gzfc_index 0 = 0 := by
      rw [hfc, hix, getD_append_length]
      simp [List.replicate_succ]
    obtain ⟨out, hout, hrem, hofc, hoix, hoel, hoid, hoex, hoct, hocs, hofr, howa⟩ :=
      gzalloc_free_step_noevict g p mem zone a st he hala hsiga hzoa hsza hk hzd hidx hev
    have hofc' : out.zone.gzfc =
        (taken ++ [gzalloc_free_saddr g zone.elem_size a]) ++ List.replicate m' 0 := by
      rw [hofc, hfc, hix, set_append_length]
      simp [List.replicate_succ]
    have hoix' : out.zone.gzfc_index =
        (taken ++ [gzalloc_free_saddr g zone.elem_size a]).length := by
      rw [hoix, hix]; simp
    have hmem' : ∀ b ∈ as,
        gzalloc_free_saddr g out.zone.elem_size b % PAGE_SIZE = 0 ∧
        (mem (gzalloc_free_hdr_addr g out.zone.elem_size b)).gzsig = GZALLOC_SIGNATURE ∧
        (mem (gzalloc_free_hdr_addr g out.zone.elem_size b)).gzone = out.zone.id ∧
        (mem (gzalloc_free_hdr_addr g out.zone.elem_size b)).gzsize = out.zone.elem_size := by
      intro b hb
      rw [hoel, hoid]
      exact hmem b (by simp [hb])
    obtain ⟨z', s', hrun, hfc', hix', hel', hid', hex', hct', hcs', hfr', hwa'⟩ :=
      ih out.zone out.st (taken ++ [gzalloc_free_saddr g zone.elem_size a]) m'
        (eligible_congr g zone out.zone hoel hoex he) hk (hoid ▸ hzd) hmem'
        hofc' hoix' (by simp; omega) (by simp at hm; omega)
    refine ⟨z', s', ?_, ?_, ?_, ?_, ?_, ?_, ?_, ?_, ?_, ?_⟩
    · simp only [freeRun, hout, hrun, hrem]
      simp [List.replicate_succ]
    · rw [hfc', hoel]
      simp [List.append_assoc]
    · rw [hix']; simp; omega
    · rw [hel', hoel]
    · rw [hid', hoid]
    · rw [hex', hoex]
    · rw [hct', hoct]
    · rw [hcs', hocs]
    · rw [hfr', hofr]
    · rw [hwa', howa]

/-- Claim C10: starting from a freshly initialized eligible size class
(guard state zeroed by gzalloc_zone_init), each of the first
capacity-many eligible non-early frees yields no eviction candidate —
no region is removed, the zone's count and byte total and the
process-wide freed and wasted counters are unchanged — and the first
release occurs on the (capacity + 1)-th such free, which removes
exactly the first-freed element's backing region. -/
theorem C10_fresh_cache_frame (g : GzGlobals) (p : Nat) (mem : Nat → gzhdr)
    (z0 : Zone) (st0 : GzState) (zone : Zone) (st1 : GzState) (as : List Nat)
    (hinit : gzalloc_zone_init g z0 st0 = .ok (zone, st1))
    (hk : g.kmem_ready = true)
    (hcap : g.gzfc_size ≠ 0)
    (he : gzalloc_eligible g zone = true)
    (hzd : zone.id ≠ GZDEADZONE)
    (hlen : as.length = g.gzfc_size + 1)
    (hmem : ∀ a ∈ as,
      gzalloc_free_saddr g zone.elem_size a % PAGE_SIZE = 0 ∧
      gzalloc_free_saddr g zone.elem_size a ≠ 0 ∧
      (mem (gzalloc_free_hdr_addr g zone.elem_size a)).gzsig = GZALLOC_SIGNATURE ∧
      (mem (gzalloc_free_hdr_addr g zone.elem_size a)).gzone = zone.id ∧
      (mem (gzalloc_free_hdr_addr g zone.elem_size a)).gzsize = zone.elem_size) :
    (∃ zm sm, freeRun g p mem zone st1 (as.take g.gzfc_size) =
        .ok (zm, sm, List.replicate g.gzfc_size none) ∧
      zm.count = zone.count ∧ zm.cur_size = zone.cur_size ∧
      sm.gzalloc_freed = st1.gzalloc_freed ∧ sm.gzalloc_wasted = st1.gzalloc_wasted) ∧
    (∃ z' s', freeRun g p mem zone st1 as = .ok (z', s',
        List.replicate g.gzfc_size none ++
          [some (gzalloc_free_saddr g zone.elem_size (as.getD 0 0),
            gzalloc_free_saddr g zone.elem_size (as.getD 0 0) +
              round_page (zone.elem_size + GZHEADER_SIZE) + PAGE_SIZE)]) ∧
      z'.count = zone.count - 1 ∧
      z'.cur_size = zone.cur_size - (round_page (zone.elem_size + GZHEADER_SIZE) : Int) ∧
      s'.gzalloc_freed = st1.gzalloc_freed + (round_page (zone.elem_size + GZHEADER_SIZE) : Int) ∧
      s'.gzalloc_wasted = st1.gzalloc_wasted -
        ((round_page (zone.elem_size + GZHEADER_SIZE) - zone.elem_size : Nat) : Int)) := by
  -- the freshly initialized cache is zeroed with the cursor at 0
  have hel4 : g.gzalloc_mode = true ∧ g.gzalloc_min ≤ zone.elem_size ∧
      zone.elem_size ≤ g.gzalloc_max ∧ zone.gzalloc_exempt = false := by
    have h := he
    simp only [gzalloc_eligible, Bool.and_eq_true, decide_eq_true_eq,
      Bool.not_eq_true'] at h
    exact ⟨h.1.1.1, h.1.1.2, h.1.2, h.2⟩
  have hzel : zone.elem_size = z0.elem_size ∧ zone.gzalloc_exempt = z0.gzalloc_exempt := by
    by_cases hcond : g.gzfc_size ≠ 0 ∧ g.gzalloc_min ≤ z0.elem_size ∧
        z0.elem_size ≤ g.gzalloc_max ∧ z0.gzalloc_exempt = false
    · simp [gzalloc_zone_init, hel4.1, hcond.1, hcond.2.1, hcond.2.2.1,
        hcond.2.2.2, hk] at hinit
      rw [← hinit.1]
      exact ⟨rfl, hcond.2.2.2.symm⟩
    · simp only [gzalloc_zone_init, hel4.1, if_true, hk] at hinit
      rw [if_neg (by simpa using hcond)] at hinit
      rw [Except.ok.injEq, Prod.mk.injEq] at hinit
      rw [← hinit.1]
      exact ⟨rfl, rfl⟩
  have hfresh : zone.gzfc = List.replicate g.gzfc_size 0 ∧ zone.gzfc_index = 0 := by
    have hcond : g.gzfc_size ≠ 0 ∧ g.gzalloc_min ≤ z0.elem_size ∧
        z0.elem_size ≤ g.gzalloc_max ∧ z0.gzalloc_exempt = false := by
      refine ⟨hcap, ?_, ?_, ?_⟩
      · rw [← hzel.1]; exact hel4.2.1
      · rw [← hzel.1]; exact hel4.2.2.1
      · rw [← hzel.2]; exact hel4.2.2.2
    simp [gzalloc_zone_init, hel4.1, hcond.1, hcond.2.1, hcond.2.2.1,
      hcond.2.2.2, hk] at hinit
    rw [← hinit.1]
    exact ⟨rfl, rfl⟩
  have hts : (as.take g.gzfc_size).length = g.gzfc_size := by simp [hlen]
  have hmem4 : ∀ a ∈ as.take g.gzfc_size,
      gzalloc_free_saddr g zone.elem_size a % PAGE_SIZE = 0 ∧
      (mem (gzalloc_free_hdr_addr g zone.elem_size a)).gzsig = GZALLOC_SIGNATURE ∧
      (mem (gzalloc_free_hdr_addr g zone.elem_size a)).gzone = zone.id ∧
      (mem (gzalloc_free_hdr_addr g zone.elem_size a)).gzsize = zone.elem_size := by
    intro a ha
    obtain ⟨h1, h2, h3, h4, h5⟩ := hmem a (List.take_subset _ _ ha)
    exact ⟨h1, h3, h4, h5⟩
  obtain ⟨zm, sm, hrunP, hfcm, hixm, helm, hidm, hexm, hctm, hcsm, hfrm, hwam⟩ :=
    freeRun_noevict g p mem (as.take g.gzfc_size) zone st1 [] g.gzfc_size
      he hk hzd hmem4 (by simpa using hfresh.1) (by simpa using hfresh.2)
      (by simp) (by simp [hlen])
  rw [hts] at hrunP
  -- decompose as into its first gzfc_size elements and the final one
  obtain ⟨a0, t, rfl⟩ : ∃ a0 t, as = a0 :: t := by
    match as, hlen with
    | a0 :: t, _ => exact ⟨a0, t, rfl⟩
  obtain ⟨b, hb⟩ : ∃ b, (a0 :: t).drop g.gzfc_size = [b] := by
    have h1 : ((a0 :: t).drop g.gzfc_size).length = 1 := by simp [hlen]
    match hd : (a0 :: t).drop g.gzfc_size with
    | [] => rw [hd] at h1; simp at h1
    | [b] => exact ⟨b, rfl⟩
    | b :: c :: u => rw [hd] at h1; simp at h1
  have hsplit : a0 :: t = (a0 :: t).take g.gzfc_size ++ [b] := by
    conv in a0 :: t => rw [← List.take_append_drop g.gzfc_size (a0 :: t)]
    rw [hb]
  -- the cache is now full and slot 0 holds the first freed region base
  have hget0 : zm.gzfc.getD 0 0 = gzalloc_free_saddr g zone.elem_size a0 := by
    rw [hfcm]
    have h0 : 0 < g.gzfc_size := by omega
    rw [List.take_cons h0]
    simp
  have hbmem : b ∈ a0 :: t := List.drop_subset g.gzfc_size _ (by rw [hb]; simp)
  obtain ⟨hbal, hbnz, hbsig, hbzo, hbsz⟩ := hmem b hbmem
  obtain ⟨ha0al, ha0nz, _, _, _⟩ := hmem a0 (by simp)
  obtain ⟨fout, hfstep, hfrem, hfct, hfcs, hffr, hfwa⟩ :=
    gzalloc_free_step_wrap g p mem zm b sm
      (eligible_congr g zone zm helm hexm he)
      (by rw [helm]; exact hbal) (by rw [helm]; exact hbsig)
      (by rw [helm, hidm]; exact hbzo) (by rw [helm]; exact hbsz)
      hk (by rw [hidm]; exact hzd) hcap (by rw [hixm]; simp [hts])
      (by rw [hget0]; exact ha0nz)
  have hrun1 : freeRun g p mem zm sm [b] = .ok (fout.zone, fout.st, [fout.removeOp]) := by
    simp only [freeRun, hfstep]
  have hfull : freeRun g p mem zone st1 (a0 :: t) =
      .ok (fout.zone, fout.st, List.replicate g.gzfc_size none ++ [fout.removeOp]) := by
    rw [hsplit]
    exact freeRun_append g p mem _ [b] zone st1 zm sm _ _ _ _ hrunP hrun1
  constructor
  · exact ⟨zm, sm, hrunP, hctm, hcsm, hfrm, hwam⟩
  · refine ⟨fout.zone, fout.st, ?_, ?_, ?_, ?_, ?_⟩
    · rw [hfull, hfrem, hget0, helm]
      simp
    · rw [hfct, hctm]
    · rw [hfcs, hcsm, helm]
    · rw [hffr, hfrm, helm]
    · rw [hfwa, hwam, helm]

/-- Witness for C10_fresh_cache_frame: capacity 2, three frees of
256-byte elements at 7936, 12032, 16128 (region bases 4096, 8192,
12288); the first two frees remove nothing, the third removes the
region based at 4096. -/
theorem C10_fresh_cache_frame_witness :
    ∃ z' s', freeRun sampleG 0 sampleMem sampleZone sampleState [7936, 12032, 16128] =
      .ok (z' , s',
        List.replicate sampleG.gzfc_size none ++
          [some (gzalloc_free_saddr sampleG sampleZone.elem_size
              (List.getD [7936, 12032, 16128] 0 0),
            gzalloc_free_saddr sampleG sampleZone.elem_size
              (List.getD [7936, 12032, 16128] 0 0) +
              round_page (sampleZone.elem_size + GZHEADER_SIZE) + PAGE_SIZE)]) ∧
      z'.count = sampleZone.count - 1 ∧
      z'.cur_size = sampleZone.cur_size -
        (round_page (sampleZone.elem_size + GZHEADER_SIZE) : Int) ∧
      s'.gzalloc_freed = sampleState.gzalloc_freed +
        (round_page (sampleZone.elem_size + GZHEADER_SIZE) : Int) ∧
      s'.gzalloc_wasted = sampleState.gzalloc_wasted -
        ((round_page (sampleZone.elem_size + GZHEADER_SIZE) - sampleZone.elem_size : Nat) : Int) :=
  (C10_fresh_cache_frame sampleG 0 sampleMem sampleZone sampleState sampleZone
    sampleState [7936, 12032, 16128] rfl rfl (by decide) (by decide) (by decide) rfl
    (by
      intro a ha
      simp only [List.mem_cons, List.not_mem_nil, or_false] at ha
      rcases ha with rfl | rfl | rfl <;>
        exact ⟨by decide, by decide, rfl, rfl, rfl⟩)).2

end Gzalloc
